import Mathlib

/-!
Verification development for the SIHPrototype ocean-query pipeline.

Shallow embedding of the Python sources:
  * src/chat/views.py      (heuristic parser, oracle parser, chat_view)
  * src/argo/utils.py      (bbox/time filter, fetch_argo_data)
  * src/visualization/utils.py (make_plot, make_comparison_plot, make_map)

Conventions of the embedding:
  * pandas DataFrames become a `DataFrame` structure: a column-name list plus a
    list of structured rows whose cells are `Option` values (None models NaN).
  * numeric cells are rationals; timestamps are integers counted in months
    (a `pd.DateOffset` of n years is 12*n months, of n months is n months).
  * effectful inputs of the code (the argopy live fetch, the demo CSV on disk,
    the wall clock, the oracle transport) are passed as explicit arguments.
  * external library renderers (plotly, leaflet/json serialisation) are
    modelled as opaque string builders; no claim inspects their content beyond
    emptiness.
-/

/-- A time cell of a table.  `stamp` is a parsed timestamp (months since an
arbitrary epoch), `tnull` is a missing value (NaT/NaN), and `raw p` is an
unparsed textual cell together with the result `p` that the external
`pd.to_datetime` parser would produce for it (`some t` if the text parses,
`none` if it does not). -/
inductive TimeCell where
  | tnull : TimeCell
  | stamp : ℤ → TimeCell
  | raw : Option ℤ → TimeCell
deriving DecidableEq, Repr

/-- A row of an observation table (src/argo demo CSV shape plus the alias
columns `longitude`/`latitude`/`temp`/`sal` handled by the code).  A field is
only meaningful when the corresponding column name is listed in the owning
`DataFrame.cols`. -/
structure Row where
  float_id : Option String := none
  lon : Option ℚ := none
  lat : Option ℚ := none
  longitude : Option ℚ := none
  latitude : Option ℚ := none
  time : TimeCell := TimeCell.tnull
  temperature : Option ℚ := none
  salinity : Option ℚ := none
  temp : Option ℚ := none
  sal : Option ℚ := none
deriving DecidableEq, Repr

/-- A pandas DataFrame: its column names and its rows. -/
structure DataFrame where
  cols : List String
  rows : List Row
deriving DecidableEq, Repr

/-- `pd.DataFrame()`: the empty table. -/
def emptyDataFrame : DataFrame := ⟨[], []⟩

/-- Values stored in the heterogeneous Python parameter dict built by the
parsers and `chat_view`.  `jstrs` is a JSON list of strings (the `variables`
value), `jints` a JSON list of integers (the `bbox` value). -/
inductive JVal where
  | jnum : ℤ → JVal
  | jstr : String → JVal
  | jstrs : List String → JVal
  | jints : List ℤ → JVal
  | jbool : Bool → JVal
  | jnull : JVal
deriving DecidableEq, Repr

/-- A Python dict with string keys, kept in insertion order. -/
def ParamsDict : Type := List (String × JVal)

instance : DecidableEq ParamsDict := by
  unfold ParamsDict
  infer_instance

/-- Python `q.lower()` (adequate for the ASCII queries at hand; defined over
the character data so that it evaluates inside the kernel). -/
def pyLower (s : String) : String := ⟨s.data.map Char.toLower⟩

/-- Python `s.startswith(pre)`, defined over the character data so that it
evaluates inside the kernel. -/
def pyStartsWith (s pre : String) : Bool := pre.data.isPrefixOf s.data

/-- Python `d.get(k)` / `d[k]`: first binding of the key. -/
def dget : ParamsDict → String → Option JVal
  | [], _ => none
  | (k0, v0) :: rest, k => if k0 = k then some v0 else dget rest k

/-- Python `d[k] = v`: replace the binding in place if present, else append. -/
def dset : ParamsDict → String → JVal → ParamsDict
  | [], k, v => [(k, v)]
  | (k0, v0) :: rest, k, v =>
      if k0 = k then (k0, v) :: rest else (k0, v0) :: dset rest k v

/-- Python substring test `pat in s`, on character lists. -/
def containsAux (pat : List Char) : List Char → Bool
  | [] => pat.isEmpty
  | c :: cs => pat.isPrefixOf (c :: cs) || containsAux pat cs

/-- Python `pat in s` for strings. -/
def containsSub (s pat : String) : Bool := containsAux pat.toList s.toList

/-- `REGION_PRESETS` from src/chat/views.py, in insertion order (Python dicts
iterate in insertion order), each value the bbox
`[lon_min, lon_max, lat_min, lat_max]`. -/
def REGION_PRESETS : List (String × List ℤ) :=
  [("pacific", [-180, 180, -60, 60]),
   ("indian ocean", [20, 120, -40, 30]),
   ("near india", [68, 98, 6, 30]),
   ("arabian sea", [52, 68, 5, 24])]

/-- The defaults dict built at the top of `parse_query_offline`. -/
def defaultParams : ParamsDict :=
  [("variables", JVal.jstrs ["temperature"]),
   ("region", JVal.jstr "pacific"),
   ("years", JVal.jnum 5),
   ("query_type", JVal.jstr "trend")]

/-- Variable-detection block of `parse_query_offline` (three sequential
conditionals over the lowercased query). -/
def detectVariables (ql : String) (d : ParamsDict) : ParamsDict :=
  let d1 := if containsSub ql "salin" then dset d "variables" (JVal.jstrs ["salinity"]) else d
  let d2 := if containsSub ql "current" then dset d1 "variables" (JVal.jstrs ["current"]) else d1
  if containsSub ql "compare" || (containsSub ql "temperature" && containsSub ql "salinity") then
    dset (dset d2 "variables" (JVal.jstrs ["temperature", "salinity"]))
      "query_type" (JVal.jstr "comparison")
  else d2

/-- Region-detection loop of `parse_query_offline`: first preset name (in
insertion order) occurring in the query wins, then `break`. -/
def detectRegion (ql : String) (d : ParamsDict) : ParamsDict :=
  match REGION_PRESETS.find? (fun p => containsSub ql p.1) with
  | some p => dset d "region" (JVal.jstr p.1)
  | none => d

/-- Query-type block of `parse_query_offline`. -/
def detectQueryType (ql : String) (d : ParamsDict) : ParamsDict :=
  if containsSub ql "map" || containsSub ql "location" then
    dset d "query_type" (JVal.jstr "map")
  else if containsSub ql "summary" || containsSub ql "average" then
    dset d "query_type" (JVal.jstr "summary")
  else d

/-- Decimal digits to a natural number. -/
def digitsToNat (ds : List Char) : ℕ :=
  ds.foldl (fun n c => 10 * n + (c.toNat - 48)) 0

/-- The unit alternation `(year|years|month|months)` of the relative-window
regex.  Python alternation is ordered, so `year` is tried before `years` and
always wins when the text starts with "year"; likewise `month`. -/
def matchUnitAt (cs : List Char) : Option String :=
  if "year".toList.isPrefixOf cs then some "year"
  else if "month".toList.isPrefixOf cs then some "month"
  else none

/-- Try the regex `last (\d+) (year|years|month|months)` anchored at the head
of `cs`: literal "last ", one or more digits (greedy), a space, then the unit
alternation. -/
def matchLastAt (cs : List Char) : Option (ℕ × String) :=
  if "last ".toList.isPrefixOf cs then
    let rest := cs.drop 5
    let ds := rest.takeWhile Char.isDigit
    let rest2 := rest.dropWhile Char.isDigit
    if ds.isEmpty then none
    else
      match rest2 with
      | ' ' :: rest3 => (matchUnitAt rest3).map (fun u => (digitsToNat ds, u))
      | _ => none
  else none

/-- `re.search` scan for the relative-window pattern: leftmost position at
which the whole pattern matches. -/
def searchLastAux : List Char → Option (ℕ × String)
  | [] => none
  | c :: cs =>
      match matchLastAt (c :: cs) with
      | some r => some r
      | none => searchLastAux cs

/-- `re.search(r"last (\d+) (year|years|month|months)", ql)` with the two
captured groups. -/
def searchLastPattern (s : String) : Option (ℕ × String) :=
  searchLastAux s.toList

/-- Exactly four decimal digits (`\d` four times), returning their value and
the remaining characters. -/
def take4Digits (cs : List Char) : Option (ℕ × List Char) :=
  match cs with
  | a :: b :: c :: d :: rest =>
      if a.isDigit && b.isDigit && c.isDigit && d.isDigit then
        some (digitsToNat [a, b, c, d], rest)
      else none
  | _ => none

/-- The character class `[-to]`. -/
def isToDash (c : Char) : Bool := c = '-' || c = 't' || c = 'o'

/-- Try the regex `(\d{4})\s*[-to]+\s*(\d{4})` anchored at the head of `cs`.
All pieces are maximal-munch; no backtracking is needed because the classes
`\s`, `[-to]` and `\d` are pairwise disjoint. -/
def matchYearsAt (cs : List Char) : Option (ℕ × ℕ) :=
  match take4Digits cs with
  | none => none
  | some (y1, r1) =>
      let r2 := r1.dropWhile Char.isWhitespace
      let sep := r2.takeWhile isToDash
      let r3 := r2.dropWhile isToDash
      if sep.isEmpty then none
      else
        match take4Digits (r3.dropWhile Char.isWhitespace) with
        | some (y2, _) => some (y1, y2)
        | none => none

/-- `re.search` scan for the absolute-window pattern. -/
def searchYearAux : List Char → Option (ℕ × ℕ)
  | [] => none
  | c :: cs =>
      match matchYearsAt (c :: cs) with
      | some r => some r
      | none => searchYearAux cs

/-- `re.search(r"(\d{4})\s*[-to]+\s*(\d{4})", ql)` with the captured years. -/
def searchYearRange (s : String) : Option (ℕ × ℕ) :=
  searchYearAux s.toList

/-- Time-horizon block of `parse_query_offline`: the absolute pattern is only
consulted in the `else` branch, i.e. when the relative pattern did not
match. -/
def detectTime (ql : String) (d : ParamsDict) : ParamsDict :=
  match searchLastPattern ql with
  | some (n, u) =>
      dset (dset d "period_num" (JVal.jnum (n : ℤ))) "period_unit" (JVal.jstr u)
  | none =>
      match searchYearRange ql with
      | some (a, b) =>
          dset (dset d "start_year" (JVal.jnum (a : ℤ))) "end_year" (JVal.jnum (b : ℤ))
      | none => d

/-- `parse_query_offline` from src/chat/views.py: the four blocks applied in
source order to the lowercased query, starting from the defaults dict. -/
def parse_query_offline (q : String) : ParamsDict :=
  detectTime (pyLower q)
    (detectQueryType (pyLower q) (detectRegion (pyLower q) (detectVariables (pyLower q) defaultParams)))

/-- The `variables` entry of a parameter dict as a list of strings (empty when
the key is absent or not a string list). -/
def getVariables (d : ParamsDict) : List String :=
  match dget d "variables" with
  | some (JVal.jstrs xs) => xs
  | _ => []

/-- The `query_type` entry of a parameter dict as a string (empty when absent
or not a string; the builder treats anything unrecognised as `trend`). -/
def getQueryType (d : ParamsDict) : String :=
  match dget d "query_type" with
  | some (JVal.jstr s) => s
  | _ => ""

/-- A bounding box `(lon_min, lon_max, lat_min, lat_max)`. -/
structure Bbox where
  lon_min : ℚ
  lon_max : ℚ
  lat_min : ℚ
  lat_max : ℚ
deriving DecidableEq, Repr

/-- `params.get("bbox", [-180,180,-90,90])` in `fetch_argo_data`. -/
def getBbox (d : ParamsDict) : Bbox :=
  match dget d "bbox" with
  | some (JVal.jints [a, b, c, e]) => ⟨(a : ℚ), (b : ℚ), (c : ℚ), (e : ℚ)⟩
  | _ => ⟨-180, 180, -90, 90⟩

/-- `params.get("period_num", params.get("years", 5))` in `fetch_argo_data`
(the numeric case; both parsers only ever store integers under these keys). -/
def getPeriodNum (d : ParamsDict) : ℕ :=
  match dget d "period_num" with
  | some (JVal.jnum n) => n.toNat
  | _ =>
      match dget d "years" with
      | some (JVal.jnum n) => n.toNat
      | _ => 5

/-- `params.get("period_unit", "years")` in `fetch_argo_data`. -/
def getPeriodUnit (d : ParamsDict) : String :=
  match dget d "period_unit" with
  | some (JVal.jstr s) => s
  | _ => "years"

/-- The row predicate of the pandas bounding-box selection
`df[(df["lon"] >= lon_min) & (df["lon"] <= lon_max) & (df["lat"] >= lat_min)
& (df["lat"] <= lat_max)]`: a NaN coordinate compares false, so only rows
with both coordinates present and inside all four inclusive bounds pass. -/
def bboxKeep (b : Bbox) (r : Row) : Bool :=
  match r.lon, r.lat with
  | some x, some y =>
      decide (b.lon_min ≤ x) && decide (x ≤ b.lon_max) &&
      decide (b.lat_min ≤ y) && decide (y ≤ b.lat_max)
  | _, _ => false

/-- The bounding-box selection stage of `_filter_by_bbox_and_time`. -/
def bboxFilter (df : DataFrame) (b : Bbox) : DataFrame :=
  { df with rows := df.rows.filter (bboxKeep b) }

/-- The timestamp a time cell carries, after conversion by `pd.to_datetime`
over the column (`raw` cells yield their external parse result). -/
def timeVal : TimeCell → Option ℤ
  | TimeCell.stamp t => some t
  | TimeCell.raw p => p
  | TimeCell.tnull => none

/-- The row predicate of `df[pd.to_datetime(df["time"]) >= start]`: NaT
compares false, so rows without a usable timestamp are dropped whenever the
time filter is active. -/
def timeKeep (start : ℤ) (r : Row) : Bool :=
  match timeVal r.time with
  | some t => decide (start ≤ t)
  | none => false

/-- The local `start` of `_filter_by_bbox_and_time`: `now` minus the
requested offset (`period_unit.startswith("year")` selects years).  `now` is
the wall clock at resolution time (`pd.Timestamp.utcnow()`), threaded
explicitly; timestamps count months, so a `pd.DateOffset` of `n` years is
`12 * n` months. -/
def windowStart (period_num : ℕ) (period_unit : String) (now : ℤ) : ℤ :=
  if pyStartsWith period_unit "year" then now - 12 * (period_num : ℤ)
  else now - (period_num : ℤ)

/-- The time-window selection block of `_filter_by_bbox_and_time`: it runs
only when `period_unit` and `period_num` are both truthy (Python `if
period_unit and period_num:`) and the table has a `time` column. -/
def timeStage (df : DataFrame) (period_num : ℕ) (period_unit : String)
    (now : ℤ) : DataFrame :=
  if period_unit ≠ "" ∧ period_num ≠ 0 then
    if "time" ∈ df.cols then
      { df with rows := df.rows.filter (timeKeep (windowStart period_num period_unit now)) }
    else df
  else df

/-- `_filter_by_bbox_and_time` from src/argo/utils.py: the bounding-box
selection followed by the time-window selection. -/
def filterByBboxAndTime (df : DataFrame) (b : Bbox) (period_num : ℕ)
    (period_unit : String) (now : ℤ) : DataFrame :=
  timeStage (bboxFilter df b) period_num period_unit now

/-- The column aliasing applied to the demo CSV by `fetch_argo_data`:
`df["lon"] = df["longitude"]` when `lon` is missing, likewise `lat`. -/
def ensureLonLat (df : DataFrame) : DataFrame :=
  let df1 :=
    if "lon" ∉ df.cols ∧ "longitude" ∈ df.cols then
      { cols := df.cols ++ ["lon"], rows := df.rows.map (fun r => { r with lon := r.longitude }) }
    else df
  if "lat" ∉ df1.cols ∧ "latitude" ∈ df1.cols then
    { cols := df1.cols ++ ["lat"], rows := df1.rows.map (fun r => { r with lat := r.latitude }) }
  else df1

/-- `fetch_argo_data` from src/argo/utils.py.  The two effectful data sources
are explicit arguments: `live` is the argopy fetch already normalised to the
table shape (`none` when argopy is absent, the request fails, or its result
errors — every such failure falls through to the demo tier), and `demo` is
the bundled demo CSV as read by `pd.read_csv(..., parse_dates=["time"])`
(`none` when the file does not exist). -/
def fetch_argo_data (live demo : Option DataFrame) (params : ParamsDict)
    (now : ℤ) : DataFrame :=
  let b := getBbox params
  let pn := getPeriodNum params
  let pu := getPeriodUnit params
  match live with
  | some df => filterByBboxAndTime df b pn pu now
  | none =>
      match demo with
      | some df => filterByBboxAndTime (ensureLonLat df) b pn pu now
      | none => emptyDataFrame

/-- The data-resolution steps of `chat_view` (src/chat/views.py lines
116-129): call `fetch_argo_data` (exceptions give an empty table, covered by
`live`/`demo` being `none`), and if the result is empty re-read the demo CSV
directly — with no bbox or time filtering — falling back to an empty table
when the file is unreadable. -/
def resolveData (live demo : Option DataFrame) (params : ParamsDict)
    (now : ℤ) : DataFrame :=
  let df := fetch_argo_data live demo params now
  if df.rows.isEmpty then demo.getD emptyDataFrame else df

/-- One step of the "Ensure variable columns" loop of `chat_view`:
`df[v] = df["temp"]` / `df[v] = df["sal"]` when the requested canonical
column is absent but the abbreviated alias is present. -/
def ensureVariableStep (df : DataFrame) (v : String) : DataFrame :=
  if v ∈ df.cols then df
  else if v = "temperature" ∧ "temp" ∈ df.cols then
    { cols := df.cols ++ ["temperature"],
      rows := df.rows.map (fun r => { r with temperature := r.temp }) }
  else if v = "salinity" ∧ "sal" ∈ df.cols then
    { cols := df.cols ++ ["salinity"],
      rows := df.rows.map (fun r => { r with salinity := r.sal }) }
  else df

/-- The whole "Ensure variable columns" loop of `chat_view`. -/
def ensureVariableColumns (params : ParamsDict) (df : DataFrame) : DataFrame :=
  (getVariables params).foldl ensureVariableStep df

/-- The observation table as handed to the response-building section of
`chat_view`: resolution followed by the column-ensuring loop. -/
def handedTable (live demo : Option DataFrame) (params : ParamsDict)
    (now : ℤ) : DataFrame :=
  ensureVariableColumns params (resolveData live demo params now)

/-- `pd.to_datetime(cell, errors="coerce")` on a single time cell: parsed
stamps and missing values are unchanged, raw text becomes its parse result or
NaT. -/
def coerceTimeCell : TimeCell → TimeCell
  | TimeCell.raw (some t) => TimeCell.stamp t
  | TimeCell.raw none => TimeCell.tnull
  | c => c

/-- The in-place column write `df["time"] = pd.to_datetime(df["time"],
errors="coerce")` applied to one row. -/
def coerceRowTime (r : Row) : Row := { r with time := coerceTimeCell r.time }

/-- The value `df[v]` holds in a row, for the variable names the code ever
requests. -/
def getVar (r : Row) (v : String) : Option ℚ :=
  if v = "temperature" then r.temperature
  else if v = "salinity" then r.salinity
  else if v = "temp" then r.temp
  else if v = "sal" then r.sal
  else none

/-- Sort key used by `sort_values("time")` after coercion. -/
def timeKey (r : Row) : ℤ := (timeVal r.time).getD 0

/-- Insertion step for the modelled `sort_values("time")`. -/
def insertByTime (r : Row) : List Row → List Row
  | [] => [r]
  | x :: xs => if timeKey r ≤ timeKey x then r :: x :: xs else x :: insertByTime r xs

/-- Modelled `sort_values("time")` (the exact tie order pandas produces is
irrelevant: the sorted rows only feed the opaque chart markup). -/
def sortByTime : List Row → List Row
  | [] => []
  | r :: rs => insertByTime r (sortByTime rs)

/-- Modelled stand-in for the external plotly renderer `fig.to_html(...)` of a
single-variable line chart; its content is opaque to every claim. -/
def plotHtml (v : String) (ts : List Row) : String :=
  "<div class=\"plotly-chart\" data-var=\"" ++ v ++ "\" data-points=\"" ++
    toString ts.length ++ "\"></div>"

/-- `make_plot` from src/visualization/utils.py.  Returns the markup fragment
together with the state of the input table after the call (the function
assigns the coerced time column back into `df`, mutating it in place). -/
def make_plot (df : DataFrame) (v : String) : String × DataFrame :=
  if df.rows.isEmpty ∨ v ∉ df.cols then
    ("<div><em>No timeseries data available for plotting.</em></div>", df)
  else if "time" ∈ df.cols then
    let df1 : DataFrame := { df with rows := df.rows.map coerceRowTime }
    let ts := sortByTime (df1.rows.filter
      (fun r => (timeVal r.time).isSome && (getVar r v).isSome))
    if ts.isEmpty then ("<div><em>No valid data to plot.</em></div>", df1)
    else (plotHtml v ts, df1)
  else
    let ts := df.rows
    if ts.isEmpty then ("<div><em>No valid data to plot.</em></div>", df)
    else (plotHtml v ts, df)

/-- Modelled stand-in for the external plotly renderer of the comparison
chart; opaque to every claim. -/
def comparePlotHtml (vs : List String) (ts : List Row) : String :=
  "<div class=\"plotly-compare\" data-vars=\"" ++ String.intercalate "," vs ++
    "\" data-points=\"" ++ toString ts.length ++ "\"></div>"

/-- `make_comparison_plot` from src/visualization/utils.py with its default
variable tuple `("temperature", "salinity")`.  Returns the markup together
with the post-call state of the input table (the time column is coerced in
place before any guard on the traces). -/
def make_comparison_plot (df : DataFrame) : String × DataFrame :=
  if df.rows.isEmpty then
    ("<div><em>No data available for comparison plot.</em></div>", df)
  else if "time" ∉ df.cols then
    ("<div><em>No time column found for plotting.</em></div>", df)
  else
    let df1 : DataFrame := { df with rows := df.rows.map coerceRowTime }
    let ts := sortByTime (df1.rows.filter (fun r => (timeVal r.time).isSome))
    let traces := ["temperature", "salinity"].filter
      (fun v => v ∈ df1.cols && !(ts.filter (fun r => (getVar r v).isSome)).isEmpty)
    if traces.isEmpty then
      ("<div><em>Requested variables not found in dataset.</em></div>", df1)
    else (comparePlotHtml traces ts, df1)

/-- The marker coordinates `(lon, lat)` collected by the feature loop of
`make_map`: `dropna(subset=["lat","lon"])` drops missing coordinates and the
`try: float(...) except: continue` skips unparseable ones — both cases are a
`none` cell in this embedding. -/
def mapFeatures (df : DataFrame) : List (ℚ × ℚ) :=
  df.rows.filterMap (fun r =>
    match r.lon, r.lat with
    | some lo, some la => some (lo, la)
    | _, _ => none)

/-- `lats = [...] or [0]` in `make_map`: the latitude list, defaulting to
`[0]` when no feature was collected. -/
def mapLats (df : DataFrame) : List ℚ :=
  let l := (mapFeatures df).map Prod.snd
  if l.isEmpty then [0] else l

/-- `lons = [...] or [0]` in `make_map`. -/
def mapLons (df : DataFrame) : List ℚ :=
  let l := (mapFeatures df).map Prod.fst
  if l.isEmpty then [0] else l

/-- `center_lat = sum(lats)/len(lats)` and the same for longitudes. -/
def mapCenter (df : DataFrame) : ℚ × ℚ :=
  ((mapLats df).sum / ((mapLats df).length : ℚ),
   (mapLons df).sum / ((mapLons df).length : ℚ))

/-- Modelled stand-in for the Leaflet/GeoJSON script fragment emitted by
`make_map` (json.dumps and the literal JS are external formatting; the
fragment embeds the computed centre and the marker count). -/
def mapScript (df : DataFrame) : String :=
  "<div id=\"embedded-map\" style=\"height:420px;\"></div><script>L.map(\"embedded-map\").setView([" ++
    (toString (mapCenter df).1 ++ (", " ++ (toString (mapCenter df).2 ++
      ("], 3); markers=" ++ (toString (mapFeatures df).length ++ ";</script>")))))

/-- `make_map` from src/visualization/utils.py.  It only reads the table
(`iterrows` over a `dropna` copy), so no post-state is returned. -/
def make_map (df : DataFrame) : String :=
  if df.rows.isEmpty then
    "<div><em>No float location data available for map.</em></div>"
  else mapScript df

/-- The fixed message `chat_view` starts from and keeps whenever no branch
produces data. -/
def noDataMsg : String := "No data found for the requested region/time."

/-- The non-null values of column `v` (pandas `.mean()` skips NaN). -/
def nonNullVals (df : DataFrame) (v : String) : List ℚ :=
  df.rows.filterMap (fun r => getVar r v)

/-- `float(df[v].mean())`: arithmetic mean over the non-null cells.  (When the
column is entirely null pandas yields NaN; the claims only exercise this with
at least one non-null cell.) -/
def pandasMean (df : DataFrame) (v : String) : ℚ :=
  (nonNullVals df v).sum / ((nonNullVals df v).length : ℚ)

/-- Python `f"{x:.2f}"` on the (exactly represented) mean: round to two
decimal places and render with a two-digit fraction. -/
def fmt2 (q : ℚ) : String :=
  let n : ℤ := round (q * 100)
  let sign := if n < 0 then "-" else ""
  let m := n.natAbs
  let frac := m % 100
  sign ++ toString (m / 100) ++ "." ++ (if frac < 10 then "0" else "") ++ toString frac

/-- The summary line `f"Average {v}: {meanv:.2f} (from {len(df)} data
points)."` of `chat_view` — note the count slot holds `len(df)`, the total
row count. -/
def summaryText (df : DataFrame) (v : String) : String :=
  "Average " ++ v ++ ": " ++ fmt2 (pandasMean df v) ++ " (from " ++
    toString df.rows.length ++ " data points)."

/-- Result of the response-building section of `chat_view`: the summary text,
the two markup fragments, and the post-build state of the handed table (the
renderers may mutate it). -/
structure BuildResult where
  summary : String
  plot_html : String
  map_html : String
  table : DataFrame
deriving DecidableEq, Repr

/-- The response-building section of `chat_view` (src/chat/views.py lines
139-166): branch on `query_type` with the empty-table short circuit. -/
def buildResponse (df : DataFrame) (params : ParamsDict) : BuildResult :=
  if df.rows.isEmpty then ⟨noDataMsg, "", "", df⟩
  else
    let qt := getQueryType params
    let vars := getVariables params
    if qt = "comparison" ∧ 1 < vars.length then
      let pr := make_comparison_plot df
      ⟨"Comparison of " ++ String.intercalate ", " vars ++ ".", pr.1, "", pr.2⟩
    else if qt = "map" then
      ⟨"Showing float locations on the map.", "", make_map df, df⟩
    else if qt = "summary" then
      let v := vars.headD ""
      if v ∈ df.cols then ⟨summaryText df v, "", "", df⟩
      else ⟨noDataMsg, "", "", df⟩
    else
      let v := vars.headD ""
      let s := if v ∈ df.cols then summaryText df v else noDataMsg
      let pr := make_plot df v
      ⟨s, pr.1, make_map pr.2, pr.2⟩

/-- Outcome of the oracle-parser transport in `parse_query_with_openai`:
`unavailable` covers every path that yields `None` in the source (the openai
library missing, the API call raising, no curly-brace match in the completion
text, or `json.loads` raising); `object j` is a successfully decoded JSON
object. -/
inductive OracleResult where
  | unavailable : OracleResult
  | object : ParamsDict → OracleResult

/-- `parse_query_with_openai` from src/chat/views.py, over the transport
outcome: the decoded object is returned as-is — no schema validation of any
kind is performed on it. -/
def parse_query_with_openai : OracleResult → Option ParamsDict
  | OracleResult.unavailable => none
  | OracleResult.object j => some j

/-- `params = parse_query_with_openai(user_query) or
parse_query_offline(user_query)` in `chat_view`: Python `or` falls through on
`None` and on an empty (falsy) dict. -/
def interpret (o : OracleResult) (q : String) : ParamsDict :=
  match parse_query_with_openai o with
  | some j => if j.isEmpty then parse_query_offline q else j
  | none => parse_query_offline q

/-- The declared oracle output schema, stated from the spec for comparison
(variables: non-empty list of strings; region: string; query_type in the
fixed enumeration; period_num/period_unit and start_year/end_year optional
with numeric/string types).  This is the validation the claim says happens;
the source performs none of it. -/
def matchesOracleSchema (j : ParamsDict) : Bool :=
  (match dget j "variables" with
   | some (JVal.jstrs xs) => !xs.isEmpty
   | _ => false) &&
  (match dget j "region" with
   | some (JVal.jstr _) => true
   | _ => false) &&
  (match dget j "query_type" with
   | some (JVal.jstr s) => ["trend", "map", "summary", "comparison"].contains s
   | _ => false) &&
  (match dget j "period_num" with
   | none => true
   | some (JVal.jnum _) => true
   | _ => false) &&
  (match dget j "period_unit" with
   | none => true
   | some (JVal.jstr _) => true
   | _ => false) &&
  (match dget j "start_year" with
   | none => true
   | some (JVal.jnum _) => true
   | _ => false) &&
  (match dget j "end_year" with
   | none => true
   | some (JVal.jnum _) => true
   | _ => false)

/-- The "near india" bounding box `[68, 98, 6, 30]`. -/
def bboxIndia : Bbox := ⟨68, 98, 6, 30⟩

/-- A demo row lying outside the "near india" bbox (lon = 200). -/
def rowFar : Row :=
  { float_id := some "f1", lon := some 200, lat := some 0,
    time := TimeCell.stamp 0, temperature := some 25, salinity := some 35 }

/-- Scenario E retained row: lon = 75, lat = 15. -/
def rowNear : Row :=
  { float_id := some "f2", lon := some 75, lat := some 15,
    time := TimeCell.stamp 0, temperature := some 28, salinity := some 36 }

/-- A demo table whose only row is outside the "near india" bbox. -/
def demoFar : DataFrame :=
  ⟨["float_id", "lon", "lat", "time", "temperature", "salinity"], [rowFar]⟩

/-- A two-row table for the Scenario E bbox checks. -/
def dfScenarioE : DataFrame :=
  ⟨["float_id", "lon", "lat", "time", "temperature", "salinity"], [rowNear, rowFar]⟩

/-- Parameters requesting temperature near india. -/
def paramsIndia : ParamsDict :=
  [("variables", JVal.jstrs ["temperature"]),
   ("region", JVal.jstr "near india"),
   ("query_type", JVal.jstr "trend"),
   ("bbox", JVal.jints [68, 98, 6, 30])]

/-- Summary-request parameters over temperature. -/
def paramsSummary : ParamsDict :=
  [("variables", JVal.jstrs ["temperature"]),
   ("region", JVal.jstr "pacific"),
   ("query_type", JVal.jstr "summary"),
   ("bbox", JVal.jints [-180, 180, -60, 60])]

/-- A three-row table whose temperature column has one null: mean 15 over the
two non-null cells, total length 3. -/
def dfNulls : DataFrame :=
  ⟨["time", "temperature"],
   [{ time := TimeCell.stamp 0, temperature := some 10 },
    { time := TimeCell.stamp 1, temperature := none },
    { time := TimeCell.stamp 2, temperature := some 20 }]⟩

/-- A one-row table whose time cell is unparseable raw text. -/
def dfRawTime : DataFrame :=
  ⟨["time", "temperature"], [{ time := TimeCell.raw none, temperature := some 10 }]⟩

/-- A table whose time cells are already parsed timestamps. -/
def dfStampTime : DataFrame :=
  ⟨["time", "temperature"], [{ time := TimeCell.stamp 3, temperature := some 1 }]⟩

/-- A non-empty table with lat/lon columns but no usable coordinates. -/
def dfNoCoords : DataFrame := ⟨["lat", "lon"], [{ float_id := some "z" }]⟩

/-- A schema-violating, non-empty JSON object an oracle completion can decode
to. -/
def jBad : ParamsDict := [("hello", JVal.jnum 1)]

/-- A decodable oracle object with an empty variables list. -/
def jEmptyVars : ParamsDict :=
  [("variables", JVal.jstrs []), ("query_type", JVal.jstr "trend")]

theorem dget_dset (d : ParamsDict) (k k' : String) (v : JVal) :
    dget (dset d k v) k' = if k' = k then some v else dget d k' := by
  induction d with
  | nil =>
      rcases eq_or_ne k k' with h | h
      · simp [dset, dget, h]
      · simp [dset, dget, h, h.symm]
  | cons p rest ih =>
      obtain ⟨k0, v0⟩ := p
      by_cases h0 : k0 = k
      · subst h0
        by_cases h1 : k' = k0
        · subst h1
          simp [dset, dget]
        · have h1' : ¬(k0 = k') := fun hh => h1 hh.symm
          simp [dset, dget, h1, h1']
      · by_cases h1 : k0 = k'
        · subst h1
          simp [dset, dget, h0]
        · simp [dset, dget, h0, h1, ih]

theorem getVariables_dset (d : ParamsDict) (k : String) (v : JVal)
    (h : k ≠ "variables") : getVariables (dset d k v) = getVariables d := by
  unfold getVariables
  rw [dget_dset, if_neg (Ne.symm h)]

theorem getQueryType_dset (d : ParamsDict) (k : String) (v : JVal)
    (h : k ≠ "query_type") : getQueryType (dset d k v) = getQueryType d := by
  unfold getQueryType
  rw [dget_dset, if_neg (Ne.symm h)]

theorem getVariables_detectRegion (ql : String) (d : ParamsDict) :
    getVariables (detectRegion ql d) = getVariables d := by
  unfold detectRegion
  cases REGION_PRESETS.find? (fun p => containsSub ql p.1) with
  | none => rfl
  | some p => exact getVariables_dset d "region" _ (by decide)

theorem getVariables_detectQueryType (ql : String) (d : ParamsDict) :
    getVariables (detectQueryType ql d) = getVariables d := by
  unfold detectQueryType
  split
  · exact getVariables_dset d "query_type" _ (by decide)
  · split
    · exact getVariables_dset d "query_type" _ (by decide)
    · rfl

theorem getVariables_detectTime (ql : String) (d : ParamsDict) :
    getVariables (detectTime ql d) = getVariables d := by
  unfold detectTime
  cases searchLastPattern ql with
  | some r =>
      rw [getVariables_dset _ "period_unit" _ (by decide),
        getVariables_dset _ "period_num" _ (by decide)]
  | none =>
      cases searchYearRange ql with
      | some r =>
          rw [getVariables_dset _ "end_year" _ (by decide),
            getVariables_dset _ "start_year" _ (by decide)]
      | none => rfl

theorem getQueryType_detectRegion (ql : String) (d : ParamsDict) :
    getQueryType (detectRegion ql d) = getQueryType d := by
  unfold detectRegion
  cases REGION_PRESETS.find? (fun p => containsSub ql p.1) with
  | none => rfl
  | some p => exact getQueryType_dset d "region" _ (by decide)

theorem getQueryType_detectTime (ql : String) (d : ParamsDict) :
    getQueryType (detectTime ql d) = getQueryType d := by
  unfold detectTime
  cases searchLastPattern ql with
  | some r =>
      rw [getQueryType_dset _ "period_unit" _ (by decide),
        getQueryType_dset _ "period_num" _ (by decide)]
  | none =>
      cases searchYearRange ql with
      | some r =>
          rw [getQueryType_dset _ "end_year" _ (by decide),
            getQueryType_dset _ "start_year" _ (by decide)]
      | none => rfl

theorem getQueryType_detectQueryType (ql : String) (d : ParamsDict) :
    getQueryType (detectQueryType ql d) = "map" ∨
    getQueryType (detectQueryType ql d) = "summary" ∨
    getQueryType (detectQueryType ql d) = getQueryType d := by
  unfold detectQueryType
  split
  · left
    unfold getQueryType
    rw [dget_dset, if_pos rfl]
  · split
    · right; left
      unfold getQueryType
      rw [dget_dset, if_pos rfl]
    · right; right; rfl

theorem getVariables_stage1 (ql : String) :
    getVariables (detectVariables ql defaultParams) = ["temperature"] ∨
    getVariables (detectVariables ql defaultParams) = ["salinity"] ∨
    getVariables (detectVariables ql defaultParams) = ["current"] ∨
    getVariables (detectVariables ql defaultParams) = ["temperature", "salinity"] := by
  unfold detectVariables
  by_cases h1 : containsSub ql "salin" <;>
    by_cases h2 : containsSub ql "current" <;>
      by_cases h3 :
        (containsSub ql "compare" || (containsSub ql "temperature" && containsSub ql "salinity")) = true <;>
        simp only [h1, h2, h3, if_true, if_false, Bool.false_eq_true, ite_false, ite_true] <;>
        decide

theorem getQueryType_stage1 (ql : String) :
    getQueryType (detectVariables ql defaultParams) = "trend" ∨
    getQueryType (detectVariables ql defaultParams) = "comparison" := by
  unfold detectVariables
  by_cases h1 : containsSub ql "salin" <;>
    by_cases h2 : containsSub ql "current" <;>
      by_cases h3 :
        (containsSub ql "compare" || (containsSub ql "temperature" && containsSub ql "salinity")) = true <;>
        simp only [h1, h2, h3, if_true, if_false, Bool.false_eq_true, ite_false, ite_true] <;>
        decide

theorem filter_idem {α : Type} (p : α → Bool) (l : List α) :
    (l.filter p).filter p = l.filter p := by
  induction l with
  | nil => rfl
  | cons a l ih => by_cases h : p a <;> simp [List.filter_cons, h, ih]

theorem filter_swap {α : Type} (p q : α → Bool) (l : List α) :
    (l.filter p).filter q = (l.filter q).filter p := by
  induction l with
  | nil => rfl
  | cons a l ih =>
      by_cases hp : p a <;> by_cases hq : q a <;> simp [List.filter_cons, hp, hq, ih]

theorem bboxFilter_idem (df : DataFrame) (b : Bbox) :
    bboxFilter (bboxFilter df b) b = bboxFilter df b := by
  show DataFrame.mk df.cols ((df.rows.filter (bboxKeep b)).filter (bboxKeep b)) =
    DataFrame.mk df.cols (df.rows.filter (bboxKeep b))
  rw [filter_idem]

theorem timeStage_eq_pos (df : DataFrame) (pn : ℕ) (pu : String) (now : ℤ)
    (hc : pu ≠ "" ∧ pn ≠ 0) (ht : "time" ∈ df.cols) :
    timeStage df pn pu now =
      ⟨df.cols, df.rows.filter (timeKeep (windowStart pn pu now))⟩ := by
  unfold timeStage
  rw [if_pos hc, if_pos ht]

theorem timeStage_eq_noTime (df : DataFrame) (pn : ℕ) (pu : String) (now : ℤ)
    (ht : "time" ∉ df.cols) : timeStage df pn pu now = df := by
  unfold timeStage
  by_cases hc : pu ≠ "" ∧ pn ≠ 0
  · rw [if_pos hc, if_neg ht]
  · rw [if_neg hc]

theorem timeStage_eq_off (df : DataFrame) (pn : ℕ) (pu : String) (now : ℤ)
    (hc : ¬(pu ≠ "" ∧ pn ≠ 0)) : timeStage df pn pu now = df := by
  unfold timeStage
  rw [if_neg hc]

theorem timeStage_idem (df : DataFrame) (pn : ℕ) (pu : String) (now : ℤ) :
    timeStage (timeStage df pn pu now) pn pu now = timeStage df pn pu now := by
  by_cases hc : pu ≠ "" ∧ pn ≠ 0
  · by_cases ht : "time" ∈ df.cols
    · rw [timeStage_eq_pos df pn pu now hc ht]
      rw [timeStage_eq_pos
        ⟨df.cols, df.rows.filter (timeKeep (windowStart pn pu now))⟩ pn pu now hc ht]
      rw [filter_idem]
    · rw [timeStage_eq_noTime df pn pu now ht, timeStage_eq_noTime df pn pu now ht]
  · rw [timeStage_eq_off df pn pu now hc, timeStage_eq_off df pn pu now hc]

theorem bboxFilter_timeStage_comm (df : DataFrame) (b : Bbox) (pn : ℕ)
    (pu : String) (now : ℤ) :
    bboxFilter (timeStage df pn pu now) b = timeStage (bboxFilter df b) pn pu now := by
  by_cases hc : pu ≠ "" ∧ pn ≠ 0
  · by_cases ht : "time" ∈ df.cols
    · rw [timeStage_eq_pos df pn pu now hc ht, timeStage_eq_pos (bboxFilter df b) pn pu now hc ht]
      show DataFrame.mk df.cols ((df.rows.filter _).filter _) =
        DataFrame.mk df.cols ((df.rows.filter _).filter _)
      rw [filter_swap]
    · rw [timeStage_eq_noTime df pn pu now ht, timeStage_eq_noTime (bboxFilter df b) pn pu now ht]
  · rw [timeStage_eq_off df pn pu now hc, timeStage_eq_off (bboxFilter df b) pn pu now hc]

theorem filterBT_idem (df : DataFrame) (b : Bbox) (pn : ℕ) (pu : String) (now : ℤ) :
    filterByBboxAndTime (filterByBboxAndTime df b pn pu now) b pn pu now =
      filterByBboxAndTime df b pn pu now := by
  show timeStage (bboxFilter (timeStage (bboxFilter df b) pn pu now) b) pn pu now = _
  rw [bboxFilter_timeStage_comm, bboxFilter_idem, timeStage_idem]
  rfl

theorem dget_detectVariables (ql : String) (d : ParamsDict) (k : String)
    (h1 : k ≠ "variables") (h2 : k ≠ "query_type") :
    dget (detectVariables ql d) k = dget d k := by
  by_cases c1 : containsSub ql "salin" <;>
    by_cases c2 : containsSub ql "current" <;>
      by_cases c3 :
        (containsSub ql "compare" || (containsSub ql "temperature" && containsSub ql "salinity")) = true <;>
        simp [detectVariables, c1, c2, c3, dget_dset, h1, h2]

theorem dget_detectRegion (ql : String) (d : ParamsDict) (k : String)
    (h : k ≠ "region") : dget (detectRegion ql d) k = dget d k := by
  unfold detectRegion
  cases REGION_PRESETS.find? (fun p => containsSub ql p.1) with
  | none => rfl
  | some p => rw [dget_dset, if_neg h]

theorem dget_detectQueryType (ql : String) (d : ParamsDict) (k : String)
    (h : k ≠ "query_type") : dget (detectQueryType ql d) k = dget d k := by
  unfold detectQueryType
  split
  · rw [dget_dset, if_neg h]
  · split
    · rw [dget_dset, if_neg h]
    · rfl

/-- Claim C3 counterexample: on a query matching both the relative pattern
and the absolute pattern, the parser sets only period_num/period_unit; the
absolute-window fields stay unset even though the absolute pattern matches
the text. -/
theorem C3_counterexample :
    searchYearRange (pyLower "last 2 years 2010 to 2020") = some (2010, 2020) ∧
    dget (parse_query_offline "last 2 years 2010 to 2020") "period_num" =
      some (JVal.jnum 2) ∧
    dget (parse_query_offline "last 2 years 2010 to 2020") "period_unit" =
      some (JVal.jstr "year") ∧
    dget (parse_query_offline "last 2 years 2010 to 2020") "start_year" = none ∧
    dget (parse_query_offline "last 2 years 2010 to 2020") "end_year" = none := by
  refine ⟨?_, ?_, ?_, ?_, ?_⟩ <;> decide

/-- Claim C3 (corrected): the absolute pattern is only consulted when the
relative pattern does not match; whenever "last N unit" matches, the parser
sets period_num/period_unit and leaves start_year/end_year unset, even if a
year range is also present in the text. -/
theorem C3_relative_suppresses_absolute (q : String) (n : ℕ) (u : String)
    (h : searchLastPattern (pyLower q) = some (n, u)) :
    dget (parse_query_offline q) "period_num" = some (JVal.jnum (n : ℤ)) ∧
    dget (parse_query_offline q) "period_unit" = some (JVal.jstr u) ∧
    dget (parse_query_offline q) "start_year" = none ∧
    dget (parse_query_offline q) "end_year" = none := by
  unfold parse_query_offline detectTime
  rw [h]
  refine ⟨?_, ?_, ?_, ?_⟩ <;>
    simp [dget_dset, dget_detectQueryType, dget_detectRegion, dget_detectVariables,
      defaultParams, dget]

/-- Witness for C3 on a plain relative query. -/
theorem C3_witness :
    searchLastPattern (pyLower "salinity last 3 months") = some (3, "month") ∧
    dget (parse_query_offline "salinity last 3 months") "start_year" = none := by
  refine ⟨by decide, ?_⟩
  exact (C3_relative_suppresses_absolute "salinity last 3 months" 3 "month" (by decide)).2.2.1

/-- Claim C4 counterexample: a decodable but schema-violating oracle object
is adopted verbatim as the parameters, unlike an unavailable oracle, which
falls back to the heuristic parser — so malformed structured output is not
treated like an unavailable oracle. -/
theorem C4_counterexample :
    interpret (OracleResult.object jBad) "average temperature" = jBad ∧
    matchesOracleSchema jBad = false ∧
    interpret OracleResult.unavailable "average temperature" =
      parse_query_offline "average temperature" ∧
    interpret (OracleResult.object jBad) "average temperature" ≠
      interpret OracleResult.unavailable "average temperature" := by
  refine ⟨rfl, rfl, rfl, ?_⟩
  decide

/-- Claim C4 (corrected): the oracle result is adopted whenever it decodes to
any non-empty JSON object — no schema validation happens; only an undecodable
completion (or an empty object, which is falsy) falls back to the heuristic
parser. -/
theorem C4_adoption_without_schema_check (j : ParamsDict) (q : String)
    (hj : j ≠ []) :
    interpret (OracleResult.object j) q = j ∧
    interpret OracleResult.unavailable q = parse_query_offline q ∧
    interpret (OracleResult.object []) q = parse_query_offline q := by
  refine ⟨?_, rfl, rfl⟩
  cases hl : j with
  | nil => exact absurd hl hj
  | cons a l => rfl

/-- Witness for C4 at a concrete non-empty object. -/
theorem C4_witness :
    jBad ≠ [] ∧ interpret (OracleResult.object jBad) "show temperature" = jBad :=
  ⟨by decide, (C4_adoption_without_schema_check jBad "show temperature" (by decide)).1⟩

/-- Claim C5 counterexample: because adoption performs no schema check, an
oracle object with an empty variables list becomes the interpretation result,
violating the non-empty-variables guarantee. -/
theorem C5_counterexample :
    interpret (OracleResult.object jEmptyVars) "show temperature trend" = jEmptyVars ∧
    getVariables (interpret (OracleResult.object jEmptyVars) "show temperature trend") = [] :=
  ⟨rfl, rfl⟩

/-- Claim C5 (corrected): the guarantee holds for the heuristic parser — for
every input string it returns a non-empty variables list and a query_type in
the fixed enumeration (and, being a total Lean function, never raises); an
adopted oracle object carries no such guarantee. -/
theorem C5_heuristic_parser_total (q : String) :
    getVariables (parse_query_offline q) ≠ [] ∧
    getQueryType (parse_query_offline q) ∈
      (["trend", "map", "summary", "comparison"] : List String) := by
  unfold parse_query_offline
  constructor
  · rw [getVariables_detectTime, getVariables_detectQueryType, getVariables_detectRegion]
    rcases getVariables_stage1 (pyLower q) with h | h | h | h <;> simp [h]
  · rw [getQueryType_detectTime]
    rcases getQueryType_detectQueryType (pyLower q)
        (detectRegion (pyLower q) (detectVariables (pyLower q) defaultParams)) with h | h | h
    · rw [h]; simp
    · rw [h]; simp
    · rw [h, getQueryType_detectRegion]
      rcases getQueryType_stage1 (pyLower q) with h2 | h2 <;> rw [h2] <;> simp

/-- Claim C6 (confirmed): the bounding-box filter retains exactly the rows
whose coordinates satisfy all four bounds inclusively. -/
theorem C6_bbox_filter_inclusive (df : DataFrame) (b : Bbox) (r : Row) (x y : ℚ)
    (hmem : r ∈ df.rows) (hlon : r.lon = some x) (hlat : r.lat = some y) :
    r ∈ (bboxFilter df b).rows ↔
      (b.lon_min ≤ x ∧ x ≤ b.lon_max ∧ b.lat_min ≤ y ∧ y ≤ b.lat_max) := by
  simp [bboxFilter, List.mem_filter, hmem, bboxKeep, hlon, hlat, and_assoc]

/-- Witness for C6 at Scenario E of the spec: under bbox [68, 98, 6, 30] the
row with lon 75, lat 15 is retained and the row with lon 200 is excluded. -/
theorem C6_witness :
    rowNear ∈ (bboxFilter dfScenarioE bboxIndia).rows ∧
    rowFar ∉ (bboxFilter dfScenarioE bboxIndia).rows := by
  constructor
  · exact (C6_bbox_filter_inclusive dfScenarioE bboxIndia rowNear 75 15
      (by decide) rfl rfl).mpr (by norm_num [bboxIndia])
  · intro hmem
    have h := (C6_bbox_filter_inclusive dfScenarioE bboxIndia rowFar 200 0
      (by decide) rfl rfl).mp hmem
    norm_num [bboxIndia] at h

/-- Claim C7 (confirmed): an empty table at entry to response building yields
the fixed no-data message and empty chart and map fragments, for every
query_type. -/
theorem C7_empty_table_short_circuit (df : DataFrame) (params : ParamsDict)
    (h : df.rows = []) :
    buildResponse df params = ⟨noDataMsg, "", "", df⟩ := by
  simp [buildResponse, h]

/-- Witness for C7: the empty table with arbitrary trend parameters. -/
theorem C7_witness :
    buildResponse emptyDataFrame paramsIndia =
      ⟨noDataMsg, "", "", emptyDataFrame⟩ :=
  C7_empty_table_short_circuit emptyDataFrame paramsIndia rfl

theorem ensureVariableStep_empty (v : String) :
    ensureVariableStep emptyDataFrame v = emptyDataFrame := by
  unfold ensureVariableStep
  simp [emptyDataFrame]

theorem ensure_foldl_empty (vs : List String) :
    vs.foldl ensureVariableStep emptyDataFrame = emptyDataFrame := by
  induction vs with
  | nil => rfl
  | cons v vs ih => rw [List.foldl_cons, ensureVariableStep_empty, ih]

/-- Claim C1 counterexample: with the live source unavailable and a static
dataset whose only row lies outside the requested bbox, `fetch_argo_data`
filters every row out and returns an empty table — but `chat_view` then
reloads the static dataset with no filtering, so the table handed to the
response builder is the non-empty, unfiltered dataset containing the
out-of-bbox row. -/
theorem C1_counterexample :
    (fetch_argo_data none (some demoFar) paramsIndia 0).rows = [] ∧
    handedTable none (some demoFar) paramsIndia 0 = demoFar ∧
    demoFar.rows ≠ [] ∧
    bboxKeep (getBbox paramsIndia) rowFar = false := by
  refine ⟨?_, ?_, ?_, ?_⟩ <;> decide

/-- Claim C1 (corrected): when no data source exists at all the handed table
is empty, and the static fallback inside the resolver does get the same bbox
and time filters as the live path; but whenever the resolver result is empty
(in particular when the filters excluded every row), `chat_view` hands over
the raw static dataset with no filters applied instead of the empty table. -/
theorem C1_resolution_fallback (params : ParamsDict) (now : ℤ) :
    handedTable none none params now = emptyDataFrame ∧
    (∀ d : DataFrame, fetch_argo_data none (some d) params now =
      filterByBboxAndTime (ensureLonLat d) (getBbox params) (getPeriodNum params)
        (getPeriodUnit params) now) ∧
    (∀ live demo : Option DataFrame,
      (fetch_argo_data live demo params now).rows = [] →
        resolveData live demo params now = demo.getD emptyDataFrame) := by
  refine ⟨?_, fun d => rfl, fun live demo h => ?_⟩
  · show ensureVariableColumns params (resolveData none none params now) = emptyDataFrame
    have h1 : resolveData none none params now = emptyDataFrame := rfl
    rw [h1]
    exact ensure_foldl_empty (getVariables params)
  · simp only [resolveData, h, List.isEmpty_nil, if_true]

/-- Witness for C1 with no sources at all and with an empty fetch result. -/
theorem C1_witness :
    handedTable none none paramsIndia 0 = emptyDataFrame ∧
    resolveData none none paramsIndia 0 = Option.getD none emptyDataFrame :=
  ⟨(C1_resolution_fallback paramsIndia 0).1,
   (C1_resolution_fallback paramsIndia 0).2.2 none none (by decide)⟩

/-- Claim C2 counterexample: on a table with three rows, one of which has a
null temperature, the summary reports the mean over the two non-null cells
but a count of 3 — the total row count, not the non-null count the claim
asserts. -/
theorem C2_counterexample :
    (buildResponse dfNulls paramsSummary).summary =
      "Average temperature: 15.00 (from 3 data points)." ∧
    (nonNullVals dfNulls "temperature").length = 2 ∧
    (buildResponse dfNulls paramsSummary).summary ≠
      "Average temperature: 15.00 (from 2 data points)." := by
  have h0 : (buildResponse dfNulls paramsSummary).summary =
      summaryText dfNulls "temperature" := rfl
  have hm : pandasMean dfNulls "temperature" = 15 := by
    simp only [pandasMean, nonNullVals, dfNulls, getVar, List.filterMap_cons,
      List.filterMap_nil]
    norm_num
  have hr : round (pandasMean dfNulls "temperature" * 100) = 1500 := by
    rw [hm]
    norm_num [round_eq]
  refine ⟨?_, by decide, ?_⟩
  · rw [h0]
    simp only [summaryText, fmt2, hr]
    decide
  · rw [h0]
    simp only [summaryText, fmt2, hr]
    decide

/-- Claim C2 (corrected): in the summary branch the reported mean is the
arithmetic mean of the first requested variable over the rows where it is
non-null (2 decimal places), but the reported data-point count is the total
table row count, not the non-null count. -/
theorem C2_summary_mean_and_total_count (df : DataFrame) (params : ParamsDict)
    (v : String) (vs : List String)
    (hrows : df.rows ≠ []) (hq : getQueryType params = "summary")
    (hv : getVariables params = v :: vs) (hcol : v ∈ df.cols)
    (hnn : nonNullVals df v ≠ []) :
    (buildResponse df params).summary =
      "Average " ++ v ++ ": " ++
        fmt2 ((nonNullVals df v).sum / ((nonNullVals df v).length : ℚ)) ++
        " (from " ++ toString df.rows.length ++ " data points)." ∧
    (buildResponse df params).plot_html = "" ∧
    (buildResponse df params).map_html = "" := by
  have hne : df.rows.isEmpty = false := by
    cases h : df.rows with
    | nil => exact absurd h hrows
    | cons a l => rfl
  simp only [buildResponse, hne, Bool.false_eq_true, if_false, hq, hv, List.headD_cons]
  rw [if_pos trivial, if_pos hcol]
  exact ⟨rfl, rfl, rfl⟩

/-- Witness for C2 at the concrete null-bearing table. -/
theorem C2_witness :
    dfNulls.rows ≠ [] ∧ (buildResponse dfNulls paramsSummary).plot_html = "" :=
  ⟨by decide,
   (C2_summary_mean_and_total_count dfNulls paramsSummary "temperature" []
     (by decide) (by decide) (by decide) (by decide) (by decide)).2.1⟩

theorem snd_ite {c : Prop} [Decidable c] (s1 s2 : String) (d : DataFrame) :
    (if c then (s1, d) else (s2, d)).2 = d := by
  split <;> rfl

/-- Claim C9 counterexample: a table whose time cell is unparseable raw text
is mutated by `make_plot` and by `make_comparison_plot` — after the call the
handed table differs from the original (its time column was coerced in
place). -/
theorem C9_counterexample :
    (make_plot dfRawTime "temperature").2 ≠ dfRawTime ∧
    (make_comparison_plot dfRawTime).2 ≠ dfRawTime := by
  refine ⟨?_, ?_⟩ <;> decide

/-- Claim C9 (corrected): `make_plot` and `make_comparison_plot` write the
coerced time column back into the handed table, mutating it in place; the
table is unchanged only when every time cell is already a parsed timestamp or
null.  (`make_map` only reads the table, which the embedding reflects by
returning no post-state.) -/
theorem C9_renderers_mutate_time_in_place (df : DataFrame) (v : String)
    (hrows : df.rows ≠ []) (hv : v ∈ df.cols) (ht : "time" ∈ df.cols) :
    (make_plot df v).2 = { df with rows := df.rows.map coerceRowTime } ∧
    (make_comparison_plot df).2 = { df with rows := df.rows.map coerceRowTime } ∧
    ((∀ r ∈ df.rows, coerceTimeCell r.time = r.time) →
      (make_plot df v).2 = df ∧ (make_comparison_plot df).2 = df) := by
  have hne : df.rows.isEmpty = false := by
    cases h : df.rows with
    | nil => exact absurd h hrows
    | cons a l => rfl
  have hg : ¬(df.rows.isEmpty = true ∨ v ∉ df.cols) := by
    simp [hne, hv]
  have hp : (make_plot df v).2 = { df with rows := df.rows.map coerceRowTime } := by
    unfold make_plot
    rw [if_neg hg, if_pos ht]
    exact snd_ite _ _ _
  have hcmp : (make_comparison_plot df).2 = { df with rows := df.rows.map coerceRowTime } := by
    unfold make_comparison_plot
    rw [if_neg (by simp [hne]), if_neg (by simp [ht])]
    exact snd_ite _ _ _
  refine ⟨hp, hcmp, fun hfix => ?_⟩
  have hid : df.rows.map coerceRowTime = df.rows := by
    have : ∀ r ∈ df.rows, coerceRowTime r = r := by
      intro r hr
      unfold coerceRowTime
      rw [hfix r hr]
    rw [List.map_congr_left this]
    exact List.map_id df.rows
  constructor
  · rw [hp, hid]
  · rw [hcmp, hid]

/-- Witness for C9: on an already-parsed table the renderers leave the handed
table unchanged. -/
theorem C9_witness :
    dfStampTime.rows ≠ [] ∧ (make_plot dfStampTime "temperature").2 = dfStampTime :=
  ⟨by decide,
   ((C9_renderers_mutate_time_in_place dfStampTime "temperature"
     (by decide) (by decide) (by decide)).2.2 (by decide)).1⟩

theorem string_append_ne_empty (s t : String) (h : s.data ≠ []) : s ++ t ≠ "" := by
  intro he
  apply h
  have h3 : s.data ++ t.data = [] := congrArg String.data he
  exact (List.append_eq_nil.mp h3).1

/-- Claim C10 (confirmed): for every non-empty table with lat and lon
columns, `make_map` produces a non-empty markup fragment, the latitude and
longitude lists used for the centre are never empty (so the centre division
never divides by zero), and when no row has usable coordinates the centre
defaults to (0, 0). -/
theorem C10_map_center_total (df : DataFrame)
    (h1 : df.rows ≠ []) (h2 : "lat" ∈ df.cols) (h3 : "lon" ∈ df.cols) :
    make_map df ≠ "" ∧ (mapLats df).length ≠ 0 ∧ (mapLons df).length ≠ 0 ∧
      (mapFeatures df = [] → mapCenter df = (0, 0)) := by
  have hne : df.rows.isEmpty = false := by
    cases h : df.rows with
    | nil => exact absurd h h1
    | cons a l => rfl
  refine ⟨?_, ?_, ?_, fun hf => ?_⟩
  · have hm : make_map df = mapScript df := by
      unfold make_map
      rw [if_neg (by simp [hne])]
    rw [hm]
    unfold mapScript
    exact string_append_ne_empty _ _ (by decide)
  · by_cases hb : ((mapFeatures df).map Prod.snd).isEmpty
    · simp [mapLats, hb]
    · simp only [mapLats]
      rw [if_neg hb]
      intro hlen
      apply hb
      rw [List.length_eq_zero.mp hlen]
      rfl
  · by_cases hb : ((mapFeatures df).map Prod.fst).isEmpty
    · simp [mapLons, hb]
    · simp only [mapLons]
      rw [if_neg hb]
      intro hlen
      apply hb
      rw [List.length_eq_zero.mp hlen]
      rfl
  · simp [mapCenter, mapLats, mapLons, hf]

/-- Witness for C10: the coordinate-free table gets centre (0, 0). -/
theorem C10_witness :
    dfNoCoords.rows ≠ [] ∧ mapCenter dfNoCoords = (0, 0) :=
  ⟨by decide,
   (C10_map_center_total dfNoCoords (by decide) (by decide) (by decide)).2.2.2 (by decide)⟩

/-- Claim C8 (confirmed): resolution against the static fallback dataset is a
pure function of its parameters and the resolution instant (the wall clock is
threaded explicitly), so two calls with identical inputs agree; moreover the
bbox and time-window filtering is idempotent — re-filtering an already
resolved table changes nothing. -/
theorem C8_resolve_deterministic (params : ParamsDict) (d : DataFrame) (now : ℤ) :
    fetch_argo_data none (some d) params now = fetch_argo_data none (some d) params now ∧
    filterByBboxAndTime (fetch_argo_data none (some d) params now) (getBbox params)
        (getPeriodNum params) (getPeriodUnit params) now =
      fetch_argo_data none (some d) params now := by
  refine ⟨rfl, ?_⟩
  show filterByBboxAndTime (filterByBboxAndTime (ensureLonLat d) (getBbox params)
      (getPeriodNum params) (getPeriodUnit params) now) (getBbox params)
      (getPeriodNum params) (getPeriodUnit params) now = _
  exact filterBT_idem (ensureLonLat d) (getBbox params) (getPeriodNum params)
    (getPeriodUnit params) now
